import Mathlib

/-!
Verification of the BE_Agent_Workflow pipeline orchestrator.

This file is a shallow embedding of the orchestration core of the
repository (src/orchestrator.py, src/state.py, src/config.py and the
agent modules under src/agents/) in Lean 4, together with theorems
settling the frozen claims about that code.

Modelling conventions:
- Python strings are Lean String, Python Optional[T] is Option T.
- Python dicts (path to content mappings, the test_output dict) are
  association lists (List (String x Value)) with first-occurrence
  lookup; insertion updates in place or appends, as dict assignment does.
- Machine wall-clock timestamps and LLM token counts are opaque; the
  audit-trail entries produced by agent models carry empty timestamps
  and zero token counts, which no control decision reads.
- LLM calls and shell collaborators (static analysis, test runner,
  integration harness) are oracles: each agent model takes the
  collaborator result for that invocation as an explicit argument, and
  the orchestrator model consumes scripts (lists) of such results.
- The regex parses the source performs on LLM free text
  (VERDICT: PASS or REJECT, CONFIDENCE: digit, FIX INSTRUCTIONS: tail)
  are implemented concretely over strings below, mirroring the
  left-to-right search semantics of re.search.
-/

/-- Dynamic Python value stored in the test_output dict
(state.py: test_output is dict[str, Any] holding returncode, stdout, stderr). -/
inductive PyVal where
  | vInt : Int → PyVal
  | vStr : String → PyVal
  | vNone : PyVal
deriving DecidableEq, Repr

/-- Python truthiness of the expression (v != 0) used by
PipelineState.test_passed (state.py line 116). -/
def PyVal.neZero : PyVal → Bool
  | .vInt n => n != 0
  | .vStr _ => true
  | .vNone  => true

/-- Association-list update modelling Python dict assignment d[k] = v:
an existing key keeps its position, a new key is appended. -/
def setKey {V : Type} : List (String × V) → String → V → List (String × V)
  | [], k, v => [(k, v)]
  | (k₀, v₀) :: rest, k, v =>
      if k₀ = k then (k, v) :: rest else (k₀, v₀) :: setKey rest k v

/-- Association-list removal modelling Python dict.pop(k, None). -/
def delKey {V : Type} : List (String × V) → String → List (String × V)
  | [], _ => []
  | (k₀, v₀) :: rest, k =>
      if k₀ = k then rest else (k₀, v₀) :: delKey rest k

/-- Apply a batch of dict assignments in order (the parsed FILE blocks
an agent writes back into a path-to-content mapping). -/
def setAll {V : Type} (m : List (String × V)) (updates : List (String × V)) :
    List (String × V) :=
  updates.foldl (fun acc kv => setKey acc kv.1 kv.2) m

/-- Python truthiness of an Optional[str] field: None and the empty
string are falsy, any other string is truthy. -/
def truthyStr : Option String → Bool
  | none => false
  | some s => s ≠ ""

/-- Python truthiness of the Optional[bool] field integration_passed:
only Some true is truthy (orchestrator.py line 312). -/
def truthyOptBool : Option Bool → Bool
  | some true => true
  | _ => false

/-! Concrete string scanning mirroring the re.search calls of the source. -/

/-- Whitespace characters matched by the regex class backslash-s
for ASCII text. -/
def isSpaceChar (c : Char) : Bool :=
  c = ' ' || c = '\t' || c = '\n' || c = '\r' || c = '\x0b' || c = '\x0c'

/-- Drop leading whitespace, the effect of a greedy backslash-s-star
at the current position. -/
def skipSpaces : List Char → List Char
  | [] => []
  | c :: cs => if isSpaceChar c then skipSpaces cs else c :: cs

/-- Case-insensitive literal match of kw (given in upper case) at the
head of cs; returns the remainder on success. -/
def matchCI : List Char → List Char → Option (List Char)
  | [], rest => some rest
  | _ :: _, [] => none
  | k :: ks, c :: cs => if c.toUpper = k then matchCI ks cs else none

/-- Case-sensitive literal match at the head of cs; returns the
remainder on success. -/
def matchCS : List Char → List Char → Option (List Char)
  | [], rest => some rest
  | _ :: _, [] => none
  | k :: ks, c :: cs => if c = k then matchCS ks cs else none

/-- Reviewer verdict token. -/
inductive Verdict where
  | PASS
  | REJECT
deriving DecidableEq, Repr

/-- Attempt to match the verdict pattern at the current position:
the literal VERDICT: (ignoring case), optional whitespace, then PASS or
REJECT (ignoring case), PASS tried first as in the regex alternation. -/
def verdictAt (cs : List Char) : Option Verdict :=
  match matchCI "VERDICT:".data cs with
  | none => none
  | some rest =>
      let rest := skipSpaces rest
      match matchCI "PASS".data rest with
      | some _ => some Verdict.PASS
      | none =>
          match matchCI "REJECT".data rest with
          | some _ => some Verdict.REJECT
          | none => none

/-- Leftmost search for the verdict pattern, as re.search does. -/
def findVerdictAux : List Char → Option Verdict
  | [] => none
  | c :: cs =>
      match verdictAt (c :: cs) with
      | some v => some v
      | none => findVerdictAux cs

/-- Match result of the verdict regex of orchestrator.py line 373 and
reviewer_agent.py line 105 over the whole text; none when no verdict
line is parseable. -/
def findVerdict (s : String) : Option Verdict :=
  findVerdictAux s.data

/-- Attempt to match the confidence pattern at the current position:
the literal CONFIDENCE: (case-sensitive), optional whitespace, then one
digit (debugger_agent.py line 109). -/
def confidenceAt (cs : List Char) : Option Nat :=
  match matchCS "CONFIDENCE:".data cs with
  | none => none
  | some rest =>
      match skipSpaces rest with
      | [] => none
      | c :: _ => if c.isDigit then some (c.toNat - '0'.toNat) else none

/-- Leftmost search for the confidence pattern. -/
def findConfidenceAux : List Char → Option Nat
  | [] => none
  | c :: cs =>
      match confidenceAt (c :: cs) with
      | some n => some n
      | none => findConfidenceAux cs

/-- Match result of the confidence regex of debugger_agent.py line 109;
none when no digit confidence is parseable. -/
def findConfidence (s : String) : Option Nat :=
  findConfidenceAux s.data

/-- Drop trailing whitespace of a character list. -/
def dropTrailing (cs : List Char) : List Char :=
  (skipSpaces cs.reverse).reverse

/-- Python str.strip(): remove leading and trailing whitespace. -/
def stripStr (s : String) : String :=
  String.mk (dropTrailing (skipSpaces s.data))

/-- Leftmost case-sensitive occurrence of kw; returns the remainder
after the keyword on success. -/
def findAfterAux (kw : List Char) : List Char → Option (List Char)
  | [] => match matchCS kw [] with
          | some rest => some rest
          | none => none
  | c :: cs =>
      match matchCS kw (c :: cs) with
      | some rest => some rest
      | none => findAfterAux kw cs

/-- Fix-instruction text the debugger stores: the tail after the first
FIX INSTRUCTIONS: marker, stripped, when at least one character follows
the marker; otherwise the whole response (debugger_agent.py lines
113-114). -/
def dbgFixText (resp : String) : String :=
  match findAfterAux "FIX INSTRUCTIONS:".data resp.data with
  | some rest => if rest.isEmpty then resp else stripStr (String.mk rest)
  | none => resp

/-! Status values (src/config.py lines 45-57).

The Status class of config.py defines exactly the eleven string
constants listed in configStatus below.  The orchestrator
(orchestrator.py lines 267 and 345), the integration agent
(integration_agent.py line 34) and the devops agent
(devops_agent.py line 60) additionally reference Status.INTEGRATION and
Status.DEVOPS, which config.py does not define. -/

namespace Status

def INIT : String := "INIT"

def ARCHITECT : String := "ARCHITECT"

def PLAN_REVIEW : String := "PLAN_REVIEW"

def CODING : String := "CODING"

def REVIEWING : String := "REVIEWING"

def TESTING : String := "TESTING"

def DEBUGGING : String := "DEBUGGING"

def WRITING : String := "WRITING"

def DONE : String := "DONE"

def FAILED : String := "FAILED"

def ABORTED : String := "ABORTED"

/-- Modelled from the spec: config.py does not define a Status member
INTEGRATION, although orchestrator.py line 267 and
integration_agent.py line 34 reference Status.INTEGRATION; the spec
names this status value INTEGRATION, and the agent models below use
this value for it. -/
def INTEGRATION : String := "INTEGRATION"

/-- Modelled from the spec: config.py does not define a Status member
DEVOPS, although orchestrator.py line 345 and devops_agent.py line 60
reference Status.DEVOPS; the spec names this status value DEVOPS, and
the agent models below use this value for it. -/
def DEVOPS : String := "DEVOPS"

end Status

/-- The status members actually defined by the Status class of
src/config.py lines 45-57, in source order. -/
def configStatus : List String :=
  ["INIT", "ARCHITECT", "PLAN_REVIEW", "CODING", "REVIEWING", "TESTING",
   "DEBUGGING", "WRITING", "DONE", "FAILED", "ABORTED"]

/-- Retry limit MAX_DEBUG_RETRIES with its config.py default of 3
(config.py line 25); the orchestrator models below are parametric in
the limit and this value instantiates them. -/
def MAX_DEBUG_RETRIES : Nat := 3

/-- Retry limit MAX_REVIEW_RETRIES with its config.py default of 1
(config.py line 26). -/
def MAX_REVIEW_RETRIES : Nat := 1

/-! Data model (src/state.py). -/

/-- One log entry per agent run (state.py AuditEntry). -/
structure AuditEntry where
  agent : String
  status : String
  tokens_used : Nat
  duration_ms : Nat
  timestamp : String
  notes : String
deriving DecidableEq, Repr

/-- A single item in the plan produced by the Architect
(state.py PlanItem). -/
structure PlanItem where
  file : String
  action : String
  description : String
  api_contract : String
  scope_estimate : String
deriving DecidableEq, Repr

/-- The central state object for one pipeline run
(state.py PipelineState), with fields in source order. -/
structure PipelineState where
  run_id : String
  status : String
  task_prompt : String
  project_root : String
  language : String
  user_rules : String
  active_rules_file : String
  plan : List PlanItem
  plan_summary : String
  task_checklist : String
  replan_count : Nat
  plan_approved : Bool
  user_feedback : Option String
  generated_files : List (String × String)
  review_notes : Option String
  review_retry_count : Nat
  test_files : List (String × String)
  test_output : List (String × PyVal)
  static_analysis_output : Option String
  error_log : Option String
  fix_instructions : Option String
  retry_count : Nat
  integration_test_output : Option String
  integration_passed : Option Bool
  docs_updated : Bool
  devops_mode : Option String
  devops_files : List (String × String)
  audit_trail : List AuditEntry
deriving DecidableEq, Repr

namespace PipelineState

/-- Fresh state as the orchestrator constructs it for a new run
(orchestrator.py lines 173-180 with the dataclass defaults of
state.py); run_id stands for the generated identifier. -/
def fresh (run_id task_prompt project_root : String)
    (devops_mode : Option String) (language : String)
    (user_rules active_rules_file : String) : PipelineState where
  run_id := run_id
  status := Status.INIT
  task_prompt := task_prompt
  project_root := project_root
  language := language
  user_rules := user_rules
  active_rules_file := active_rules_file
  plan := []
  plan_summary := ""
  task_checklist := ""
  replan_count := 0
  plan_approved := false
  user_feedback := none
  generated_files := []
  review_notes := none
  review_retry_count := 0
  test_files := []
  test_output := []
  static_analysis_output := none
  error_log := none
  fix_instructions := none
  retry_count := 0
  integration_test_output := none
  integration_passed := none
  docs_updated := false
  devops_mode := devops_mode
  devops_files := []
  audit_trail := []

/-- Append a timestamped entry to the audit trail
(state.py PipelineState.log); the wall-clock timestamp is opaque and
modelled as the empty string. -/
def log (s : PipelineState) (agent : String) (notes : String := "")
    (tokens : Nat := 0) (duration_ms : Nat := 0) : PipelineState :=
  { s with audit_trail := s.audit_trail ++
      [{ agent := agent, status := s.status, tokens_used := tokens,
         duration_ms := duration_ms, timestamp := "", notes := notes }] }

/-- Return true only when both static analysis and runtime tests pass
(state.py lines 113-117): bool(static_analysis_output) must be false
and test_output.get(returncode-key, 1) != 0 must be false. -/
def test_passed (s : PipelineState) : Bool :=
  let has_static_errors := truthyStr s.static_analysis_output
  let has_runtime_errors :=
    ((s.test_output.lookup "returncode").getD (PyVal.vInt 1)).neZero
  !has_static_errors && !has_runtime_errors

end PipelineState

/-- Python string interpolation of an Optional[str] value: None renders
as the four-letter text None (orchestrator.py line 259 interpolates
state.review_notes directly). -/
def pyFmtOptStr : Option String → String
  | none => "None"
  | some s => s

/-- Python str() of a dynamic value, used when test_output entries are
interpolated into the error log (tester_agent.py line 138). -/
def PyVal.pyStr : PyVal → String
  | .vInt n => toString n
  | .vStr s => s
  | .vNone  => "None"

/-! Agent models.  Each agent is a function of the pipeline state and
of the collaborator results of that single invocation (the LLM response
or shell-tool result), mirroring the control flow of the corresponding
run method in src/agents/. -/

/-- Collaborator results of one Architect invocation
(architect_agent.py): the raw LLM response, the outcome of
extract-json plus PlanItem construction (none models the exception
path of lines 127-133), and the match results of the checklist,
summary and fallback-summary regexes. -/
structure ArchResp where
  raw : String
  parsedPlan : Option (List PlanItem)
  checklistMatch : Option String
  summaryMatch : Option String
  fallbackSummary : Option String
deriving DecidableEq, Repr

/-- ArchitectAgent.run (architect_agent.py lines 41-155): set status
ARCHITECT; on plan-parse failure store the raw response in the summary,
clear plan and checklist, log and return early; on success store the
plan, checklist and summary, bump replan_count, reset plan_approved to
false and log. -/
def architectRun (s : PipelineState) (r : ArchResp) : PipelineState :=
  let s1 := { s with status := Status.ARCHITECT }
  match r.parsedPlan with
  | none =>
      ({ s1 with plan := [],
                 plan_summary := "[Plan parsing failed]\n\n" ++ r.raw,
                 task_checklist := "" }).log "Architect" "Plan parsing error"
  | some items =>
      ({ s1 with plan := items,
                 task_checklist := (r.checklistMatch.map stripStr).getD "",
                 plan_summary :=
                   match r.summaryMatch with
                   | some t => stripStr t
                   | none => (r.fallbackSummary.map stripStr).getD r.raw,
                 replan_count := s1.replan_count + 1,
                 plan_approved := false
       }).log "Architect" (toString items.length ++ " plan items")

/-- Valid input at the human plan-approval gate (invalid input
re-prompts without state mutation and is not modelled). -/
inductive HumanChoice where
  | approve
  | requestChanges (feedback : String)
  | abort
deriving DecidableEq, Repr

/-- The human plan-approval gate (orchestrator.py lines 54-129, human
decision loop lines 95-129): Approve sets plan_approved and clears
user_feedback, RequestChanges records feedback and clears approval,
Abort sets status ABORTED. -/
def humanPlanApproval (s : PipelineState) : HumanChoice → PipelineState
  | .approve => { s with plan_approved := true, user_feedback := none }
  | .requestChanges fb =>
      { s with user_feedback := some (stripStr fb), plan_approved := false }
  | .abort => { s with status := Status.ABORTED }

/-- Collaborator results of one Coder invocation (coder_agent.py): the
extracted code blocks for the plan items generated in order (generate
mode), and the parsed FILE blocks of a fix response (fix mode). -/
structure CoderResp where
  genContents : List String
  fixFiles : List (String × String)
deriving DecidableEq, Repr

/-- Plan walk of CoderAgent generate mode (coder_agent.py lines
44-69): DELETE pops the key, CREATE and MODIFY upsert the extracted
code block for the item. -/
def coderGenerate (files : List (String × String)) :
    List PlanItem → List String → List (String × String)
  | [], _ => files
  | item :: rest, contents =>
      if item.action = "DELETE" then
        coderGenerate (delKey files item.file) rest contents
      else
        match contents with
        | c :: cs => coderGenerate (setKey files item.file c) rest cs
        | [] => coderGenerate (setKey files item.file "") rest []

/-- CoderAgent.run (coder_agent.py lines 31-36 with the two modes at
lines 40-73 and 95-132): set status CODING; with truthy
fix_instructions apply the parsed fix files, otherwise generate from
the plan; in both modes clear fix_instructions and log. -/
def coderRun (s : PipelineState) (r : CoderResp) : PipelineState :=
  let s1 := { s with status := Status.CODING }
  if truthyStr s1.fix_instructions then
    ({ s1 with generated_files := setAll s1.generated_files r.fixFiles,
               fix_instructions := none }).log "Coder" "fix applied"
  else
    ({ s1 with generated_files :=
                 coderGenerate s1.generated_files s1.plan r.genContents,
               fix_instructions := none
     }).log "Coder" (toString s1.plan.length ++ " files generated")

/-- ReviewerAgent.run (reviewer_agent.py lines 49-100): set status
REVIEWING; with no generated files store a fixed note and return;
otherwise store the LLM response as review_notes and, when its parsed
verdict is REJECT, increment review_retry_count. -/
def reviewerRun (s : PipelineState) (resp : String) : PipelineState :=
  let s1 := { s with status := Status.REVIEWING }
  if s1.generated_files = [] then
    ({ s1 with review_notes := some "No files to review." }).log
      "Reviewer" "skip - no files"
  else
    let s2 := { s1 with review_notes := some resp }
    if findVerdict resp = some Verdict.REJECT then
      ({ s2 with review_retry_count := s2.review_retry_count + 1 }).log
        "Reviewer" "REJECTED"
    else
      s2.log "Reviewer" "PASSED"

/-- Collaborator results of one Tester invocation (tester_agent.py):
the detected language when state.language is auto, the net static
analysis output after the pyflakes auto-fix (none means clean), the
parsed generated test files, and the run_tests result dict. -/
structure TesterOutcome where
  detectedLang : String
  staticErrors : Option String
  genTestFiles : List (String × String)
  testOutput : List (String × PyVal)
deriving DecidableEq, Repr

/-- TesterAgent.run (tester_agent.py lines 100-148): set status
TESTING; persist the detected language when the state says auto; on
remaining static errors record them with the error log and return
early; otherwise clear static_analysis_output, generate test files when
none exist or a retry is in progress, store the test-run result and set
or clear error_log from its returncode. -/
def testerRun (s : PipelineState) (o : TesterOutcome) : PipelineState :=
  let s1 := { s with status := Status.TESTING }
  let s1 :=
    if s1.language ≠ "" ∧ s1.language ≠ "auto" then s1
    else { s1 with language := o.detectedLang }
  match o.staticErrors with
  | some e =>
      ({ s1 with static_analysis_output := some e,
                 error_log := some ("STATIC ANALYSIS ERRORS:\n" ++ e) }).log
        "Tester"
        ("STATIC ERRORS found - test run skipped (attempt " ++
          toString (s1.retry_count + 1) ++ ")")
  | none =>
      let s2 := { s1 with static_analysis_output := none }
      let s3 :=
        if s2.test_files = [] ∨ s2.retry_count > 0 then
          ({ s2 with test_files := setAll s2.test_files o.genTestFiles }).log
            "Tester"
            (toString (setAll s2.test_files o.genTestFiles).length ++
              " test file(s) generated")
        else s2
      let s4 := { s3 with test_output := o.testOutput }
      if ((o.testOutput.lookup "returncode").getD (PyVal.vInt 1)).neZero then
        let combined :=
          "STDOUT:\n" ++
            ((o.testOutput.lookup "stdout").getD (PyVal.vStr "")).pyStr ++
            "\n\nSTDERR:\n" ++
            ((o.testOutput.lookup "stderr").getD (PyVal.vStr "")).pyStr
        ({ s4 with error_log := some combined }).log "Tester"
          ("RUNTIME FAIL (attempt " ++ toString (s4.retry_count + 1) ++ ")")
      else
        ({ s4 with error_log := none }).log "Tester" "PASS -- all tests green"

/-- DebuggerAgent.run (debugger_agent.py lines 45-136): set status
DEBUGGING; parse the confidence with default 3; below the threshold 3
clear fix_instructions and set status FAILED; otherwise store the fix
text, clear static errors and increment retry_count. -/
def debuggerRun (s : PipelineState) (resp : String) : PipelineState :=
  let s1 := { s with status := Status.DEBUGGING }
  let confidence := (findConfidence resp).getD 3
  if confidence < 3 then
    ({ s1 with fix_instructions := none, status := Status.FAILED }).log
      "Debugger"
      ("LOW CONFIDENCE (" ++ toString confidence ++ "/5) - escalating to human")
  else
    ({ s1 with fix_instructions := some (dbgFixText resp),
               static_analysis_output := none,
               retry_count := s1.retry_count + 1 }).log
      "Debugger"
      ("Fix ready (confidence " ++ toString confidence ++ "/5, retry #" ++
        toString (s1.retry_count + 1) ++ ")")

/-- Collaborator result of one Integration invocation
(integration_agent.py): the overall verdict of
run_integration_tests and the formatted per-endpoint texts. -/
structure IntegOutcome where
  passed : Bool
  resultsText : String
  reportText : String
deriving DecidableEq, Repr

/-- IntegrationAgent.run (integration_agent.py lines 32-77): set
status INTEGRATION; on pass store the result log and
integration_passed true; on failure store the failure report, set
integration_passed false and the error log. -/
def integrationRun (s : PipelineState) (o : IntegOutcome) : PipelineState :=
  let s1 := { s with status := Status.INTEGRATION }
  if o.passed then
    ({ s1 with integration_test_output := some o.resultsText,
               integration_passed := some true }).log
      "IntegrationAgent" "All integration tests passed"
  else
    ({ s1 with integration_test_output := some o.reportText,
               integration_passed := some false,
               error_log := some ("INTEGRATION TEST FAILURES:\n" ++
                 o.reportText) }).log
      "IntegrationAgent" "Integration tests failed"

/-- Collaborator results of one Writer invocation (writer_agent.py):
the parsed docstring-updated files written back into
generated_files. -/
structure WriterResp where
  docFiles : List (String × String)
deriving DecidableEq, Repr

/-- WriterAgent.run (writer_agent.py lines 31-62): set status WRITING,
update the docstring files, mark docs_updated, then set status DONE
and log. -/
def writerRun (s : PipelineState) (r : WriterResp) : PipelineState :=
  ({ s with generated_files := setAll s.generated_files r.docFiles,
            docs_updated := true,
            status := Status.DONE }).log
    "Writer" "docs written, status=DONE"

/-- Collaborator results of one DevOps invocation (devops_agent.py):
the parsed docker and kubernetes FILE blocks. -/
structure DevOpsResp where
  dockerFiles : List (String × String)
  k8sFiles : List (String × String)
deriving DecidableEq, Repr

/-- DevOpsAgent.run (devops_agent.py lines 59-84): set status DEVOPS;
the mode defaults to all; docker and k8s generators record their files
per mode; log. -/
def devopsRun (s : PipelineState) (r : DevOpsResp) : PipelineState :=
  let s1 := { s with status := Status.DEVOPS }
  let mode :=
    match s1.devops_mode with
    | some m => if m ≠ "" then m else "all"
    | none => "all"
  let s2 :=
    if mode = "docker" ∨ mode = "all" then
      { s1 with devops_files := setAll s1.devops_files r.dockerFiles }
    else s1
  let s3 :=
    if mode = "k8s" ∨ mode = "all" then
      { s2 with devops_files := setAll s2.devops_files r.k8sFiles }
    else s2
  s3.log "DevOps"
    ("mode=" ++ mode ++ ", " ++ toString s3.devops_files.length ++
      " file(s) generated")

/-! Orchestrator model (src/orchestrator.py run, lines 134-366).
The scripts record holds the collaborator results the agents will
consume, one list per agent, consumed front first; the model goes
stuck (none) when a script runs out or a loop exceeds its fuel. -/

/-- Remaining collaborator results for each agent of one run. -/
structure Scripts where
  arch : List ArchResp
  gate : List HumanChoice
  coder : List CoderResp
  reviewer : List String
  tester : List TesterOutcome
  debugTexts : List String
  integ : List IntegOutcome
  writer : List WriterResp
  devops : List DevOpsResp
deriving DecidableEq, Repr

/-- Result of one orchestrator stage: the state, the remaining
scripts, the invocation trace so far (one entry per agent run call),
and whether the stage executed a return statement of run (ending the
whole pipeline). -/
structure StageOut where
  st : PipelineState
  sc : Scripts
  trace : List String
  finished : Bool
deriving DecidableEq, Repr

/-- Stage 1 loop (orchestrator.py lines 205-222): run the Architect,
run the human gate, then unconditionally set status PLAN_REVIEW, then
test for ABORTED (the test the preceding assignment makes
unreachable), then break on plan_approved, else loop. -/
def stage1 : Nat → PipelineState → Scripts → List String → Option StageOut
  | 0, _, _, _ => none
  | fuel + 1, s, sc, tr =>
      match sc.arch, sc.gate with
      | a :: arch', c :: gate' =>
          let s1 := architectRun s a
          let tr1 := tr ++ ["Architect"]
          let s2 := humanPlanApproval s1 c
          let s3 := { s2 with status := Status.PLAN_REVIEW }
          let sc' := { sc with arch := arch', gate := gate' }
          if s3.status = Status.ABORTED then
            some ⟨s3, sc', tr1, true⟩
          else if s3.plan_approved then
            some ⟨s3, sc', tr1, false⟩
          else
            stage1 fuel s3 sc' tr1
      | _, _ => none

/-- Stage 2 loop (orchestrator.py lines 227-260): run Coder then
Reviewer; parse the verdict from review_notes with default PASS; break
on PASS; break with a warning once attempts reach MAX_REVIEW_RETRIES;
otherwise increment the counter, store the rejection notes as fix
instructions and loop. -/
def stage2 : Nat → Nat → Nat → PipelineState → Scripts → List String →
    Option StageOut
  | 0, _, _, _, _, _ => none
  | fuel + 1, maxR, attempts, s, sc, tr =>
      match sc.coder, sc.reviewer with
      | c :: cod', r :: rev' =>
          let s1 := coderRun s c
          let s2 := reviewerRun s1 r
          let sc' := { sc with coder := cod', reviewer := rev' }
          let tr1 := tr ++ ["Coder", "Reviewer"]
          let verdict := (findVerdict ((s2.review_notes).getD "")).getD
            Verdict.PASS
          if verdict = Verdict.PASS then
            some ⟨s2, sc', tr1, false⟩
          else if attempts ≥ maxR then
            some ⟨s2, sc', tr1, false⟩
          else
            let attempts' := attempts + 1
            let s3 := { s2 with
              review_retry_count := attempts',
              fix_instructions := some
                ("The code reviewer rejected the code. Fix ALL of these issues:\n"
                  ++ pyFmtOptStr s2.review_notes) }
            stage2 fuel maxR attempts' s3 sc' tr1
      | _, _ => none

/-- Stage 3 loop (orchestrator.py lines 270-340): run the Tester; on a
failing test_passed either go terminal FAILED once attempts reached
MAX_DEBUG_RETRIES or run Debugger (terminal when it set FAILED) then
Coder, refresh attempts from retry_count and restart; on passing unit
tests run the Integration agent; break when it passed, otherwise the
same bounded check against the same counter, then Debugger and Coder,
refresh attempts, reset integration_passed to unknown and restart from
the top (the unit tests). -/
def stage3 : Nat → Nat → Nat → PipelineState → Scripts → List String →
    Option StageOut
  | 0, _, _, _, _, _ => none
  | fuel + 1, maxD, attempts, s, sc, tr =>
      match sc.tester with
      | [] => none
      | t :: tst' =>
          let s1 := testerRun s t
          let sc1 := { sc with tester := tst' }
          let tr1 := tr ++ ["Tester"]
          if !s1.test_passed then
            if attempts ≥ maxD then
              some ⟨{ s1 with status := Status.FAILED }, sc1, tr1, true⟩
            else
              match sc1.debugTexts with
              | [] => none
              | d :: dbg' =>
                  let s2 := debuggerRun s1 d
                  let sc2 := { sc1 with debugTexts := dbg' }
                  let tr2 := tr1 ++ ["Debugger"]
                  if s2.status = Status.FAILED then
                    some ⟨s2, sc2, tr2, true⟩
                  else
                    match sc2.coder with
                    | [] => none
                    | c :: cod' =>
                        let s3 := coderRun s2 c
                        let sc3 := { sc2 with coder := cod' }
                        stage3 fuel maxD s3.retry_count s3 sc3
                          (tr2 ++ ["Coder"])
          else
            match sc1.integ with
            | [] => none
            | i :: itg' =>
                let s2 := integrationRun s1 i
                let sc2 := { sc1 with integ := itg' }
                let tr2 := tr1 ++ ["Integration"]
                if truthyOptBool s2.integration_passed then
                  some ⟨s2, sc2, tr2, false⟩
                else if attempts ≥ maxD then
                  some ⟨{ s2 with status := Status.FAILED }, sc2, tr2, true⟩
                else
                  match sc2.debugTexts with
                  | [] => none
                  | d :: dbg' =>
                      let s3 := debuggerRun s2 d
                      let sc3 := { sc2 with debugTexts := dbg' }
                      let tr3 := tr2 ++ ["Debugger"]
                      if s3.status = Status.FAILED then
                        some ⟨s3, sc3, tr3, true⟩
                      else
                        match sc3.coder with
                        | [] => none
                        | c :: cod' =>
                            let s4 := coderRun s3 c
                            let sc4 := { sc3 with coder := cod' }
                            let s5 := { s4 with integration_passed := none }
                            stage3 fuel maxD s4.retry_count s5 sc4
                              (tr3 ++ ["Coder"])

/-- Full pipeline controller (orchestrator.py run, lines 134-366):
stage guards keyed on status, stage 4 Writer unless already past it or
terminal, stage 5 DevOps only with devops_mode set and status not
terminal, then the final explicit DONE assignment unless FAILED or
ABORTED. -/
def runPipeline (fuel maxR maxD : Nat) (s0 : PipelineState) (sc0 : Scripts) :
    Option (PipelineState × List String) :=
  let st1 :=
    if s0.status = Status.INIT ∨ s0.status = Status.ARCHITECT ∨
        s0.status = Status.PLAN_REVIEW then
      stage1 fuel s0 sc0 []
    else
      some ⟨s0, sc0, [], false⟩
  match st1 with
  | none => none
  | some o1 =>
    if o1.finished then some (o1.st, o1.trace) else
    let st2 :=
      if o1.st.status = Status.PLAN_REVIEW ∨ o1.st.status = Status.CODING ∨
          o1.st.status = Status.REVIEWING then
        stage2 fuel maxR o1.st.review_retry_count o1.st o1.sc o1.trace
      else
        some ⟨o1.st, o1.sc, o1.trace, false⟩
    match st2 with
    | none => none
    | some o2 =>
      let st3 :=
        if o2.st.status = Status.REVIEWING ∨ o2.st.status = Status.CODING ∨
            o2.st.status = Status.TESTING ∨ o2.st.status = Status.DEBUGGING ∨
            o2.st.status = Status.INTEGRATION then
          stage3 fuel maxD o2.st.retry_count o2.st o2.sc o2.trace
        else
          some ⟨o2.st, o2.sc, o2.trace, false⟩
      match st3 with
      | none => none
      | some o3 =>
        if o3.finished then some (o3.st, o3.trace) else
        let st4 :=
          if o3.st.status = Status.WRITING ∨ o3.st.status = Status.DEVOPS ∨
              o3.st.status = Status.DONE ∨ o3.st.status = Status.FAILED ∨
              o3.st.status = Status.ABORTED then
            some (o3.st, o3.sc, o3.trace)
          else
            match o3.sc.writer with
            | [] => none
            | w :: ws =>
                some (writerRun o3.st w, { o3.sc with writer := ws },
                  o3.trace ++ ["Writer"])
        match st4 with
        | none => none
        | some (s4, sc4, tr4) =>
          let st5 :=
            if truthyStr s4.devops_mode ∧
                ¬(s4.status = Status.DONE ∨ s4.status = Status.FAILED ∨
                  s4.status = Status.ABORTED) then
              match sc4.devops with
              | [] => none
              | d :: _ => some (devopsRun s4 d, tr4 ++ ["DevOps"])
            else
              some (s4, tr4)
          match st5 with
          | none => none
          | some (s5, tr5) =>
            if ¬(s5.status = Status.FAILED ∨ s5.status = Status.ABORTED) then
              some ({ s5 with status := Status.DONE }, tr5)
            else
              some (s5, tr5)

/-! Checkpoint serialization model (state.py to_dict and from_dict,
lines 119-143).  A serialized snapshot is the JSON-level tree: every
field the dataclass serializer emits, where the fields from_dict
supplies defaults for (pop with default, setdefault) are optional so
older snapshots missing them are representable. -/

/-- The JSON-level persisted form of a PipelineState snapshot. -/
structure SerializedState where
  run_id : String
  status : String
  task_prompt : String
  project_root : String
  language : Option String
  user_rules : String
  active_rules_file : String
  plan : Option (List PlanItem)
  plan_summary : String
  task_checklist : Option String
  replan_count : Nat
  plan_approved : Bool
  user_feedback : Option String
  generated_files : List (String × String)
  review_notes : Option String
  review_retry_count : Nat
  test_files : Option (List (String × String))
  test_output : List (String × PyVal)
  static_analysis_output : Option (Option String)
  error_log : Option String
  fix_instructions : Option String
  retry_count : Nat
  integration_test_output : Option (Option String)
  integration_passed : Option (Option Bool)
  docs_updated : Bool
  devops_mode : Option (Option String)
  devops_files : Option (List (String × String))
  audit_trail : Option (List AuditEntry)
deriving DecidableEq, Repr

/-- Serialize state to the checkpoint form
(state.py PipelineState.to_dict via dataclasses.asdict): every field
is emitted. -/
def PipelineState.to_dict (s : PipelineState) : SerializedState where
  run_id := s.run_id
  status := s.status
  task_prompt := s.task_prompt
  project_root := s.project_root
  language := some s.language
  user_rules := s.user_rules
  active_rules_file := s.active_rules_file
  plan := some s.plan
  plan_summary := s.plan_summary
  task_checklist := some s.task_checklist
  replan_count := s.replan_count
  plan_approved := s.plan_approved
  user_feedback := s.user_feedback
  generated_files := s.generated_files
  review_notes := s.review_notes
  review_retry_count := s.review_retry_count
  test_files := some s.test_files
  test_output := s.test_output
  static_analysis_output := some s.static_analysis_output
  error_log := s.error_log
  fix_instructions := s.fix_instructions
  retry_count := s.retry_count
  integration_test_output := some s.integration_test_output
  integration_passed := some s.integration_passed
  docs_updated := s.docs_updated
  devops_mode := some s.devops_mode
  devops_files := some s.devops_files
  audit_trail := some s.audit_trail

/-- Restore state from a checkpoint (state.py PipelineState.from_dict):
plan and audit_trail entries are rebuilt element-wise, test_files and
devops_files are popped with empty defaults, and the fields added
after older checkpoint formats get their setdefault values. -/
def PipelineState.from_dict (d : SerializedState) : PipelineState where
  run_id := d.run_id
  status := d.status
  task_prompt := d.task_prompt
  project_root := d.project_root
  language := d.language.getD "auto"
  user_rules := d.user_rules
  active_rules_file := d.active_rules_file
  plan := (d.plan.getD []).map (fun p =>
    { file := p.file, action := p.action, description := p.description,
      api_contract := p.api_contract, scope_estimate := p.scope_estimate })
  plan_summary := d.plan_summary
  task_checklist := d.task_checklist.getD ""
  replan_count := d.replan_count
  plan_approved := d.plan_approved
  user_feedback := d.user_feedback
  generated_files := d.generated_files
  review_notes := d.review_notes
  review_retry_count := d.review_retry_count
  test_files := d.test_files.getD []
  test_output := d.test_output
  static_analysis_output := d.static_analysis_output.getD none
  error_log := d.error_log
  fix_instructions := d.fix_instructions
  retry_count := d.retry_count
  integration_test_output := d.integration_test_output.getD none
  integration_passed := d.integration_passed.getD none
  docs_updated := d.docs_updated
  devops_mode := d.devops_mode.getD none
  devops_files := d.devops_files.getD []
  audit_trail := (d.audit_trail.getD []).map (fun e =>
    { agent := e.agent, status := e.status, tokens_used := e.tokens_used,
      duration_ms := e.duration_ms, timestamp := e.timestamp,
      notes := e.notes })

/-! Concrete fixtures used by the closed theorems below. -/

/-- A one-item plan as the Architect produces it. -/
def sampleItem : PlanItem :=
  { file := "src/app.py", action := "CREATE", description := "main app",
    api_contract := "", scope_estimate := "" }

/-- A well-formed Architect response whose JSON plan parses. -/
def archOK : ArchResp :=
  { raw := "plan text", parsedPlan := some [sampleItem],
    checklistMatch := some "1. create src/app.py",
    summaryMatch := some "one file", fallbackSummary := none }

/-- A Coder response for a one-item plan. -/
def coderOK : CoderResp :=
  { genContents := ["print(1)"], fixFiles := [("src/app.py", "print(2)")] }

/-- A Tester collaborator outcome where everything passes. -/
def testerPass : TesterOutcome :=
  { detectedLang := "python", staticErrors := none,
    genTestFiles := [("tests/test_app.py", "def test_ok(): pass")],
    testOutput := [("returncode", PyVal.vInt 0), ("stdout", PyVal.vStr "ok"),
                   ("stderr", PyVal.vStr "")] }

/-- A Tester collaborator outcome whose test run fails. -/
def testerFail : TesterOutcome :=
  { detectedLang := "python", staticErrors := none,
    genTestFiles := [("tests/test_app.py", "def test_ok(): pass")],
    testOutput := [("returncode", PyVal.vInt 1), ("stdout", PyVal.vStr "boom"),
                   ("stderr", PyVal.vStr "")] }

/-- A passing integration outcome. -/
def integPass : IntegOutcome :=
  { passed := true, resultsText := "[PASS] GET /health", reportText := "" }

/-- A failing integration outcome. -/
def integFail : IntegOutcome :=
  { passed := false, resultsText := "",
    reportText := "FAILED ENDPOINTS: GET /health" }

/-- A Writer response with no docstring updates. -/
def writerOK : WriterResp := { docFiles := [] }

/-- A DevOps response producing one docker file. -/
def devopsOK : DevOpsResp :=
  { dockerFiles := [("Dockerfile", "FROM python:3.12-slim")], k8sFiles := [] }

/-- A confident Debugger response. -/
def debugOK : String := "ROOT CAUSE: x\nCONFIDENCE: 4\nFIX INSTRUCTIONS:\nfix it"

/-- Baseline fresh pipeline state for a new run without devops mode. -/
def baseState : PipelineState :=
  PipelineState.fresh "run-0" "add login endpoint" "/proj" none "python" ""
    "rules/RULES.md"

/-! Claim C3. -/

/-- C3: the claim states that the status type of the program has
exactly the thirteen members INIT, ARCHITECT, PLAN_REVIEW, CODING,
REVIEWING, TESTING, DEBUGGING, INTEGRATION, WRITING, DEVOPS, DONE,
FAILED, ABORTED.  The Status class of src/config.py (the program's
status type, transcribed in configStatus) defines only eleven members:
INTEGRATION and DEVOPS are absent, even though orchestrator.py lines
267 and 345, integration_agent.py line 34 and devops_agent.py line 60
reference them. -/
theorem C3_integration_devops_missing_from_status :
    "INTEGRATION" ∉ configStatus ∧ "DEVOPS" ∉ configStatus ∧
    configStatus.length = 11 ∧ "INIT" ∈ configStatus ∧
    "DONE" ∈ configStatus ∧ "FAILED" ∈ configStatus ∧
    "ABORTED" ∈ configStatus := by decide

/-! Claim C5. -/

/-- C5: for every PipelineState, test_passed() returns true if and
only if no static-analysis error is recorded (the Optional field is
falsy) and the last test run's exit code was zero; and it returns
false whenever static_analysis_output holds a non-empty string,
regardless of test_output. -/
theorem C5_test_passed_iff (s : PipelineState) :
    (s.test_passed = true ↔
      (truthyStr s.static_analysis_output = false ∧
        s.test_output.lookup "returncode" = some (PyVal.vInt 0))) ∧
    (∀ e : String, s.static_analysis_output = some e → e ≠ "" →
      s.test_passed = false) := by
  constructor
  · cases h : s.test_output.lookup "returncode" with
    | none =>
        simp [PipelineState.test_passed, h, PyVal.neZero]
    | some v =>
        cases v with
        | vInt n =>
            by_cases hn : n = 0 <;>
              simp [PipelineState.test_passed, h, PyVal.neZero, hn]
        | vStr t =>
            simp [PipelineState.test_passed, h, PyVal.neZero]
        | vNone =>
            simp [PipelineState.test_passed, h, PyVal.neZero]
  · intro e he hne
    simp [PipelineState.test_passed, truthyStr, he, hne]

/-- C5 witness: a state with a recorded static error E1 and a passing
test exit code still fails test_passed, via C5_test_passed_iff. -/
theorem C5_test_passed_iff_witness :
    PipelineState.test_passed
      { baseState with static_analysis_output := some "E1",
                       test_output := [("returncode", PyVal.vInt 0)] } =
      false :=
  (C5_test_passed_iff _).2 "E1" rfl (by decide)

/-! Claim C10. -/

/-- C10: for every PipelineState whose test_output has no returncode
entry (an empty mapping included), test_passed() returns false: the
missing exit code defaults to the failure value 1. -/
theorem C10_missing_returncode_fails (s : PipelineState)
    (h : s.test_output.lookup "returncode" = none) :
    s.test_passed = false := by
  simp [PipelineState.test_passed, h, PyVal.neZero]

/-- C10 witness: the fresh state has an empty test_output mapping and
test_passed is false on it, via C10_missing_returncode_fails. -/
theorem C10_missing_returncode_fails_witness :
    baseState.test_output.lookup "returncode" = none ∧
    baseState.test_passed = false :=
  ⟨rfl, C10_missing_returncode_fails baseState rfl⟩

/-! Claim C9. -/

/-- Rebuilding a PlanItem from its serialized fields is the
identity. -/
theorem planItem_rebuild_id (l : List PlanItem) :
    l.map (fun p => PlanItem.mk p.file p.action p.description
      p.api_contract p.scope_estimate) = l := by
  induction l with
  | nil => rfl
  | cons p rest ih => cases p; simp [ih]

/-- Rebuilding an AuditEntry from its serialized fields is the
identity. -/
theorem auditEntry_rebuild_id (l : List AuditEntry) :
    l.map (fun e => AuditEntry.mk e.agent e.status e.tokens_used
      e.duration_ms e.timestamp e.notes) = l := by
  induction l with
  | nil => rfl
  | cons e rest ih => cases e; simp [ih]

/-- C9: for every PipelineState s, from_dict (to_dict s) equals s in
every field, including the nested plan and audit_trail sequences and
the generated_files, test_files and devops_files mappings: the
serialize then deserialize round-trip is the identity. -/
theorem C9_roundtrip (s : PipelineState) :
    PipelineState.from_dict s.to_dict = s := by
  cases s
  simp [PipelineState.from_dict, PipelineState.to_dict,
    planItem_rebuild_id, auditEntry_rebuild_id]

/-! Claim C8. -/

/-- An Architect response whose JSON plan fails to parse. -/
def archBad : ArchResp :=
  { raw := "I could not produce a plan.", parsedPlan := none,
    checklistMatch := none, summaryMatch := none, fallbackSummary := none }

/-- A state entering the Architect with an already-approved plan. -/
def c8State : PipelineState := { baseState with plan_approved := true }

/-- C8 counterexample: the claim states plan_approved is reset to
false on every Architect invocation, including one whose JSON plan
fails to parse; on the parse-failure path (architect_agent.py lines
127-133) the agent returns early and a previously true plan_approved
stays true. -/
theorem C8_counterexample :
    (architectRun c8State archBad).plan_approved = true := by decide

/-- C8 amended: plan_approved is reset to false on every Architect
invocation whose JSON plan parses successfully; an invocation whose
plan fails to parse returns early and leaves plan_approved
unchanged. -/
theorem C8_plan_approved_reset :
    (∀ (s : PipelineState) (r : ArchResp) (items : List PlanItem),
      r.parsedPlan = some items → (architectRun s r).plan_approved = false) ∧
    (∀ (s : PipelineState) (r : ArchResp),
      r.parsedPlan = none →
        (architectRun s r).plan_approved = s.plan_approved) := by
  constructor
  · intro s r items h
    simp [architectRun, h, PipelineState.log]
  · intro s r h
    simp [architectRun, h, PipelineState.log]

/-- C8 amended witness: on the parsing response archOK the reset
happens, and on the failing response archBad the field is preserved,
via C8_plan_approved_reset. -/
theorem C8_plan_approved_reset_witness :
    (architectRun baseState archOK).plan_approved = false ∧
    (architectRun c8State archBad).plan_approved = c8State.plan_approved :=
  ⟨C8_plan_approved_reset.1 baseState archOK [sampleItem] rfl,
   C8_plan_approved_reset.2 c8State archBad rfl⟩

/-! Claim C6. -/

/-- The fixed note the reviewer stores when there are no files has no
parseable verdict line. -/
theorem findVerdict_no_files_note : findVerdict "No files to review." = none := by
  decide

/-- C6: when the reviewer notes contain no parseable VERDICT line, the
verdict resolves to PASS, the code/review loop of stage 2 exits after
the single Coder and Reviewer invocation, and review_retry_count stays
0. -/
theorem C6_unparseable_verdict_passes (fuel maxR : Nat) (s : PipelineState)
    (sc : Scripts) (tr : List String) (c : CoderResp) (cod' : List CoderResp)
    (r : String) (rev' : List String)
    (hc : sc.coder = c :: cod') (hr : sc.reviewer = r :: rev')
    (hrrc : s.review_retry_count = 0) (hv : findVerdict r = none) :
    ∃ s' : PipelineState,
      stage2 (fuel + 1) maxR s.review_retry_count s sc tr =
        some ⟨s', { sc with coder := cod', reviewer := rev' },
          tr ++ ["Coder", "Reviewer"], false⟩ ∧
      s'.review_retry_count = 0 := by
  refine ⟨reviewerRun (coderRun s c) r, ?_, ?_⟩
  · by_cases hgf : (coderRun s c).generated_files = []
    · simp [stage2, hc, hr, reviewerRun, hgf, PipelineState.log,
        findVerdict_no_files_note]
    · simp [stage2, hc, hr, reviewerRun, hgf, PipelineState.log, hv]
  · by_cases hgf : (coderRun s c).generated_files = []
    · have hc' : (coderRun s c).review_retry_count = 0 := by
        by_cases hfix : truthyStr s.fix_instructions <;>
          simp [coderRun, hfix, PipelineState.log, hrrc]
      simp [reviewerRun, hgf, PipelineState.log, hc']
    · have hc' : (coderRun s c).review_retry_count = 0 := by
        by_cases hfix : truthyStr s.fix_instructions <;>
          simp [coderRun, hfix, PipelineState.log, hrrc]
      simp [reviewerRun, hgf, PipelineState.log, hv, hc']

/-- C6 witness: a concrete stage-2 run where the reviewer answers with
text lacking any verdict line exits at once with the counter at 0, via
C6_unparseable_verdict_passes. -/
theorem C6_unparseable_verdict_passes_witness :
    ∃ s' : PipelineState,
      stage2 (5 + 1) 1
        (PipelineState.fresh "run-6" "t" "/p" none "python" "" "r").review_retry_count
        (PipelineState.fresh "run-6" "t" "/p" none "python" "" "r")
        ⟨[], [], [coderOK], ["looks fine to me"], [], [], [], [], []⟩ [] =
        some ⟨s', ⟨[], [], [], [], [], [], [], [], []⟩,
          [] ++ ["Coder", "Reviewer"], false⟩ ∧
      s'.review_retry_count = 0 :=
  C6_unparseable_verdict_passes 5 1
    (PipelineState.fresh "run-6" "t" "/p" none "python" "" "r")
    ⟨[], [], [coderOK], ["looks fine to me"], [], [], [], [], []⟩ []
    coderOK [] "looks fine to me" [] rfl rfl rfl (by decide)

/-! Claim C4. -/

/-- C4: once retry_count has reached MAX_DEBUG_RETRIES, the very next
failing result of stage 3 — a failing unit/static test or a failing
integration run — makes the orchestrator set status FAILED and return,
with no further Debugger invocation. -/
theorem C4_retry_exhaustion_terminal (fuel maxD : Nat) (s : PipelineState)
    (sc : Scripts) (tr : List String) (t : TesterOutcome)
    (tst' : List TesterOutcome)
    (htst : sc.tester = t :: tst')
    (hmax : maxD ≤ s.retry_count)
    (hfail : (testerRun s t).test_passed = false ∨
      ((testerRun s t).test_passed = true ∧
        ∃ (i : IntegOutcome) (itg' : List IntegOutcome),
          sc.integ = i :: itg' ∧ i.passed = false)) :
    ∃ (s' : PipelineState) (sc' : Scripts) (tnew : List String),
      stage3 (fuel + 1) maxD s.retry_count s sc tr =
        some ⟨s', sc', tr ++ tnew, true⟩ ∧
      s'.status = Status.FAILED ∧ "Debugger" ∉ tnew := by
  rcases hfail with hf | ⟨hp, i, itg', hint, hip⟩
  · refine ⟨{ testerRun s t with status := Status.FAILED },
      { sc with tester := tst' }, ["Tester"], ?_, rfl, by decide⟩
    simp [stage3, htst, hf, hmax]
  · refine ⟨{ integrationRun (testerRun s t) i with status := Status.FAILED },
      { sc with tester := tst', integ := itg' }, ["Tester", "Integration"],
      ?_, rfl, by decide⟩
    simp [stage3, htst, hp, hint, integrationRun, truthyOptBool, hip,
      PipelineState.log, hmax]

/-- C4 witness: with retry_count already 3 and MAX_DEBUG_RETRIES 3, a
failing tester outcome goes terminal FAILED at once with no Debugger
invocation, via C4_retry_exhaustion_terminal. -/
theorem C4_retry_exhaustion_terminal_witness :
    ∃ (s' : PipelineState) (sc' : Scripts) (tnew : List String),
      stage3 (5 + 1) 3 ({ baseState with retry_count := 3 } : PipelineState).retry_count
        { baseState with retry_count := 3 }
        ⟨[], [], [coderOK], [], [testerFail], [debugOK], [integPass], [], []⟩ [] =
        some ⟨s', sc', [] ++ tnew, true⟩ ∧
      s'.status = Status.FAILED ∧ "Debugger" ∉ tnew :=
  C4_retry_exhaustion_terminal 5 3 { baseState with retry_count := 3 }
    ⟨[], [], [coderOK], [], [testerFail], [debugOK], [integPass], [], []⟩ []
    testerFail [] rfl (by decide) (Or.inl (by decide))

/-! Claim C7. -/

/-- C7: when the integration stage reports failure with retry_count
below MAX_DEBUG_RETRIES and a confident Debugger, stage 3 runs the
Debugger then the Coder, resets integration_passed to unknown, and
resumes at the top of the loop — the unit-test stage 3a — rather than
directly at the integration stage 3b. -/
theorem C7_integration_failure_restarts_at_3a (fuel maxD : Nat)
    (s : PipelineState) (sc : Scripts) (tr : List String)
    (t : TesterOutcome) (tst' : List TesterOutcome)
    (i : IntegOutcome) (itg' : List IntegOutcome)
    (d : String) (dbg' : List String)
    (c : CoderResp) (cod' : List CoderResp)
    (htst : sc.tester = t :: tst') (hint : sc.integ = i :: itg')
    (hdbg : sc.debugTexts = d :: dbg') (hcod : sc.coder = c :: cod')
    (hpass : (testerRun s t).test_passed = true)
    (hip : i.passed = false)
    (hlt : s.retry_count < maxD)
    (hconf : 3 ≤ (findConfidence d).getD 3) :
    ∃ s' : PipelineState,
      s' = { coderRun (debuggerRun (integrationRun (testerRun s t) i) d) c
             with integration_passed := none } ∧
      s'.integration_passed = none ∧
      stage3 (fuel + 1) maxD s.retry_count s sc tr =
        stage3 fuel maxD
          (coderRun (debuggerRun (integrationRun (testerRun s t) i) d)
            c).retry_count
          s'
          { sc with tester := tst', debugTexts := dbg', coder := cod', integ := itg' }
          (tr ++ ["Tester", "Integration", "Debugger", "Coder"]) := by
  refine ⟨_, rfl, rfl, ?_⟩
  have hnge : ¬ (s.retry_count ≥ maxD) := not_le.mpr hlt
  have hnconf : ¬ ((findConfidence d).getD 3 < 3) := not_lt.mpr hconf
  simp [stage3, htst, hpass, hint, hdbg, hcod, integrationRun, truthyOptBool,
    hip, PipelineState.log, hnge, debuggerRun, hnconf, Status.DEBUGGING,
    Status.FAILED, Status.INTEGRATION]

/-- State entering stage 3 after a passed review. -/
def c7Start : PipelineState :=
  { baseState with status := Status.REVIEWING,
                   generated_files := [("src/app.py", "print(1)")] }

/-- Scripts for the C7 witness: unit tests pass, integration fails
once, the Debugger is confident. -/
def sc7 : Scripts :=
  { arch := [], gate := [], coder := [coderOK], reviewer := [],
    tester := [testerPass], debugTexts := [debugOK], integ := [integFail],
    writer := [], devops := [] }

/-- C7 witness: a concrete integration failure on attempt 1 of
MAX_DEBUG_RETRIES 3 runs Debugger and Coder, resets integration_passed
to unknown and restarts the loop at the unit-test stage, via
C7_integration_failure_restarts_at_3a. -/
theorem C7_integration_failure_restarts_at_3a_witness :
    ∃ s' : PipelineState,
      s' = { coderRun (debuggerRun (integrationRun (testerRun c7Start
               testerPass) integFail) debugOK) coderOK
             with integration_passed := none } ∧
      s'.integration_passed = none ∧
      stage3 (5 + 1) 3 c7Start.retry_count c7Start sc7 [] =
        stage3 5 3
          (coderRun (debuggerRun (integrationRun (testerRun c7Start
            testerPass) integFail) debugOK) coderOK).retry_count
          s'
          { sc7 with tester := [], debugTexts := [], coder := [], integ := [] }
          ([] ++ ["Tester", "Integration", "Debugger", "Coder"]) :=
  C7_integration_failure_restarts_at_3a 5 3 c7Start sc7 [] testerPass []
    integFail [] debugOK [] coderOK [] rfl rfl rfl rfl (by decide) rfl
    (by decide) (by decide)

/-! Claim C1. -/

/-- Scripts for the C1 run: the human chooses Abort at the first gate,
then (on the unexpected second pass) Approve, and every later stage
succeeds. -/
def sc1 : Scripts :=
  { arch := [archOK, archOK],
    gate := [HumanChoice.abort, HumanChoice.approve],
    coder := [coderOK], reviewer := ["VERDICT: PASS\nok"],
    tester := [testerPass], debugTexts := [], integ := [integPass],
    writer := [writerOK], devops := [] }

/-- C1: the claim states a run in which the human chooses Abort at the
plan-approval gate ends immediately with status ABORTED and no further
stage executes.  In the code the assignment of PLAN_REVIEW at
orchestrator.py line 213 overwrites the ABORTED status the gate set,
so the check at line 216 never fires: this run aborts at the first
gate yet invokes the Architect a second time, runs Coder, Reviewer,
Tester, Integration and Writer, and terminates with status DONE, not
ABORTED. -/
theorem C1_abort_is_not_terminal :
    (runPipeline 10 1 3 baseState sc1).map (fun p => p.1.status) =
      some Status.DONE ∧
    (runPipeline 10 1 3 baseState sc1).map (fun p => p.2) =
      some ["Architect", "Architect", "Coder", "Reviewer", "Tester",
            "Integration", "Writer"] ∧
    Status.DONE ≠ Status.ABORTED :=
  ⟨rfl, rfl, by decide⟩

/-! Claim C2. -/

/-- Fresh state of a run started with devops_mode docker. -/
def c2State : PipelineState :=
  PipelineState.fresh "run-2" "add login endpoint" "/proj" (some "docker")
    "python" "" "rules/RULES.md"

/-- Scripts for the C2 run: everything succeeds and a DevOps response
stands ready, but is never consumed. -/
def sc2 : Scripts :=
  { arch := [archOK], gate := [HumanChoice.approve], coder := [coderOK],
    reviewer := ["VERDICT: PASS\nok"], tester := [testerPass],
    debugTexts := [], integ := [integPass], writer := [writerOK],
    devops := [devopsOK] }

/-- C2: the claim states that with devops_mode set and the run neither
FAILED nor ABORTED, the DevOps agent is invoked after the Writer and
DONE is assigned only as the final step.  In the code WriterAgent.run
itself sets status DONE (writer_agent.py line 60), so the stage-5
guard of orchestrator.py line 353 is false whenever the Writer ran:
this healthy docker-mode run never invokes DevOps and produces no
devops files. -/
theorem C2_devops_skipped_after_writer :
    (runPipeline 10 1 3 c2State sc2).map (fun p => p.1.status) =
      some Status.DONE ∧
    (runPipeline 10 1 3 c2State sc2).map (fun p => p.2) =
      some ["Architect", "Coder", "Reviewer", "Tester", "Integration",
            "Writer"] ∧
    (runPipeline 10 1 3 c2State sc2).map (fun p => p.2.contains "DevOps") =
      some false ∧
    (runPipeline 10 1 3 c2State sc2).map (fun p => p.1.devops_files) =
      some [] ∧
    truthyStr c2State.devops_mode = true :=
  ⟨rfl, rfl, rfl, rfl, rfl⟩
